import Mathlib

/-!
# Verification of the detection-session subsystem

Shallow embedding of the detection engine of the proctoring web application
(`src/detection/detection_engine.py`), its event model
(`src/detection/models.py`), the report scorer (`src/reports/models.py`),
and the report generation counts (`src/reports/views.py`).

Conventions of the embedding:
* wall-clock instants and confidence scores are rationals (`ℚ`);
* the persistent `EventLog` table is a list of rows in primary-key
  (= insertion) order;
* the global dict `active_detection_threads` is a list of
  (interview id, session) pairs in insertion order, with dict semantics
  given by `lookupEntry` / `insertEntry` / `eraseEntry`;
* a `DetectionThread` is modelled by its observable state: the interview id,
  the duration budget and the `_stop_event` flag; thread aliveness
  (`Thread.is_alive()`) is an environment-supplied predicate;
* the nondeterminism of one loop iteration of `DetectionThread.run`
  (clock reads, database status reads, simulated detector outputs,
  `random.uniform` draws, stop-event observations) is packaged into a
  `TickInput`; a run consumes a list of tick inputs.
-/

set_option linter.unnecessarySimpa false

namespace Proctor

/-! ## Event data model (src/detection/models.py) -/

/-- `EventLog.EVENT_TYPE_CHOICES`, src/detection/models.py lines 6-15:
the declared (value, display) pairs for `event_type`. -/
def EVENT_TYPE_CHOICES : List (String × String) :=
  [("focus_lost", "Focus Lost"),
   ("no_face", "No Face Detected"),
   ("multiple_faces", "Multiple Faces Detected"),
   ("phone_detected", "Phone Detected"),
   ("notes_detected", "Notes Detected"),
   ("device_detected", "Device Detected"),
   ("drowsiness", "Drowsiness Detected"),
   ("audio_anomaly", "Audio Anomaly")]

/-- One persisted `EventLog` row.  The table is a `List StoredEvent` in
primary-key order; `timestamp` is `auto_now_add`, monotone in insertion
order per interview. -/
structure StoredEvent where
  interview : Nat
  event_type : String
  description : String
  confidence_score : ℚ
  timestamp : ℚ
deriving DecidableEq, Repr

/-- The `EventLog` table, rows in ascending primary-key order. -/
abbrev EventDb := List StoredEvent

/-! ## Sessions and the registry (src/detection/detection_engine.py) -/

/-- Observable state of a `DetectionThread` (lines 26-32): the owning
interview id, the duration budget, and whether `_stop_event` is set. -/
structure Session where
  interviewId : Nat
  durationMinutes : Nat
  stopRequested : Bool
deriving DecidableEq, Repr

/-- The global dict `active_detection_threads` (line 24): association list
with dict semantics (at most one pair per key in every reachable state). -/
abbrev Registry := List (Nat × Session)

/-- Dict lookup `active_detection_threads[id]` / `id in active_detection_threads`. -/
def lookupEntry : Registry → Nat → Option Session
  | [], _ => none
  | (k, s) :: r, id => if k = id then some s else lookupEntry r id

/-- Dict deletion `del active_detection_threads[id]` (a no-op when the key
is absent, matching the guarded deletions in the source). -/
def eraseEntry (r : Registry) (id : Nat) : Registry :=
  r.filter (fun p => p.1 != id)

/-- Dict assignment `active_detection_threads[id] = s`: replaces the
existing pair in place, or appends a new one. -/
def insertEntry (r : Registry) (id : Nat) (s : Session) : Registry :=
  if (lookupEntry r id).isSome then
    r.map (fun p => if p.1 = id then (id, s) else p)
  else
    r ++ [(id, s)]

/-- Number of registry pairs carrying a given interview id. -/
def countKey (r : Registry) (id : Nat) : Nat :=
  r.countP (fun p => p.1 == id)

/-- What `stop_detection` reports through its prints: no entry found
(line 205), thread finished within the join timeout (line 198), or the
warning path where the thread stayed alive and the entry was force-removed
(lines 194-196). -/
inductive StopReport
  | nothingToStop
  | stoppedCleanly
  | timedOutForced
deriving DecidableEq, Repr

/-- `thread.join(timeout=10)` at line 191: seconds `stop_detection` waits. -/
def stop_join_timeout : ℚ := 10

/-- `stop_detection(interview_id)`, lines 179-210.  Input
`stillAliveAfterJoin` is the environment's answer to `thread.is_alive()`
after the 10-second join.  Returns the new registry, the signalled session
(with its `_stop_event` set, line 188) when one was found, and the report.
On every path the source ends with the entry deleted (lines 196, 201-202
and the double-check at 208-209). -/
def stop_detection (r : Registry) (interviewId : Nat) (stillAliveAfterJoin : Bool) :
    Registry × Option Session × StopReport :=
  match lookupEntry r interviewId with
  | some s =>
      (eraseEntry r interviewId, some { s with stopRequested := true },
       if stillAliveAfterJoin then StopReport.timedOutForced else StopReport.stoppedCleanly)
  | none => (r, none, StopReport.nothingToStop)

/-- `start_detection(interview, duration_minutes)`, lines 164-177: first
calls `stop_detection` on the same id (line 169), then creates and
registers a fresh thread (lines 172-174).  Returns the new registry, the
fresh session, and the session the embedded stop call signalled (if any). -/
def start_detection (r : Registry) (interviewId durationMinutes : Nat)
    (oldStillAliveAfterJoin : Bool) : Registry × Session × Option Session :=
  let stopped := stop_detection r interviewId oldStillAliveAfterJoin
  let s : Session :=
    { interviewId := interviewId, durationMinutes := durationMinutes, stopRequested := false }
  (insertEntry stopped.1 interviewId s, s, stopped.2.1)

/-- `is_detection_active(interview_id)`, lines 212-216: membership in the
dict and `is_alive()` on the stored thread. -/
def is_detection_active (aliveOf : Session → Bool) (r : Registry) (interviewId : Nat) : Bool :=
  match lookupEntry r interviewId with
  | some s => aliveOf s
  | none => false

/-- `get_active_detection_count()`, lines 218-223: number of registry
values whose thread is alive. -/
def get_active_detection_count (aliveOf : Session → Bool) (r : Registry) : Nat :=
  (r.filter (fun p => aliveOf p.2)).length

/-- `cleanup_inactive_threads()`, lines 260-271: deletes every entry whose
thread is dead, returns (new registry, number removed). -/
def cleanup_inactive_threads (aliveOf : Session → Bool) (r : Registry) : Registry × Nat :=
  (r.filter (fun p => aliveOf p.2), (r.filter (fun p => !aliveOf p.2)).length)

/-- `thread.join(timeout=2)` at line 307: per-entry join timeout used by
`force_stop_all_detection`. -/
def force_join_timeout : ℚ := 2

/-- `force_stop_all_detection()`, lines 300-311: iterates over a snapshot
`list(active_detection_threads.items())`, signals and joins each thread,
and deletes its entry from the live dict regardless of cooperation. -/
def force_stop_all_detection (r : Registry) : Registry :=
  r.foldl (fun acc p => eraseEntry acc p.1) r

/-- Interview ids `force_stop_all_detection` signals cancellation to
(`thread.stop()` at line 306 for every snapshot entry). -/
def force_stop_all_signalled (r : Registry) : List Nat :=
  r.map Prod.fst

/-- One registry-mutating call of the module's public surface. -/
inductive RegistryOp
  | opStart (interviewId durationMinutes : Nat) (oldStillAliveAfterJoin : Bool)
  | opStop (interviewId : Nat) (stillAliveAfterJoin : Bool)
  | opForceStopAll
  | opCleanup (aliveOf : Session → Bool)

/-- Effect of a registry operation on the registry. -/
def applyOp (r : Registry) : RegistryOp → Registry
  | RegistryOp.opStart i d a => (start_detection r i d a).1
  | RegistryOp.opStop i a => (stop_detection r i a).1
  | RegistryOp.opForceStopAll => force_stop_all_detection r
  | RegistryOp.opCleanup aliveOf => (cleanup_inactive_threads aliveOf r).1

/-! ## The detection loop `DetectionThread.run`
(src/detection/detection_engine.py lines 34-120) -/

/-- `random.choice(['phone', 'notes', 'device'])` at line 140: the object
classes `_detect_objects` can report. -/
inductive ObjKind
  | phone
  | notes
  | device
deriving DecidableEq, Repr

/-- Python string of an object class. -/
def ObjKind.str : ObjKind → String
  | ObjKind.phone => "phone"
  | ObjKind.notes => "notes"
  | ObjKind.device => "device"

/-- The nondeterministic data one iteration of the loop consumes:
* `now` — the clock (`time.time()`, lines 59 and 66; the two reads of one
  iteration are modelled as a single instant);
* `stopAtTop` — `self._stop_event.is_set()` at the `while` head (line 47);
* `refreshOk` / `status` — outcome of `refresh_from_db` and the status
  read (lines 49-56);
* `focus`, `faceCount`, `objects`, `drowsy` — outputs of the simulated
  detectors `_detect_focus`, `_detect_faces`, `_detect_objects`,
  `_detect_drowsiness` (each object paired with its `random.uniform` draw);
* `focusConf`, `noFaceConf`, `multiConf`, `drowsyConf` — the
  `random.uniform` confidence draws consumed if the matching event fires;
* `stopDuringWait` — whether `self._stop_event.wait(timeout=2)` (line 114)
  returned true.
The per-tick exception handler (lines 110-111) only matters for mid-tick
detector failures, on which no claim depends; ticks are modelled as not
raising inside the detection body. -/
structure TickInput where
  now : ℚ
  stopAtTop : Bool
  refreshOk : Bool
  status : String
  focus : Bool
  faceCount : Nat
  objects : List (ObjKind × ℚ)
  drowsy : Bool
  focusConf : ℚ
  noFaceConf : ℚ
  multiConf : ℚ
  drowsyConf : ℚ
  stopDuringWait : Bool
deriving Repr

/-- Arguments of one `_log_event` call (lines 147-158): the row the loop
appends to the event table. -/
structure Event where
  event_type : String
  description : String
  confidence_score : ℚ
deriving DecidableEq, Repr

/-- The loop's mutable debounce state: `focus_lost_start` and
`no_face_start` (lines 42-43). -/
structure DetState where
  focus_lost_start : Option ℚ
  no_face_start : Option ℚ
deriving DecidableEq, Repr

/-- Both timers start out `None` (lines 42-43). -/
def initState : DetState := ⟨none, none⟩

/-- `focus_lost_threshold = 5` (line 44), seconds. -/
def focus_lost_threshold : ℚ := 5

/-- `no_face_threshold = 10` (line 45), seconds. -/
def no_face_threshold : ℚ := 10

/-- `self._stop_event.wait(timeout=2)` (line 114): the poll interval in
seconds. -/
def poll_interval : ℚ := 2

/-- Focus debounce (lines 69-79).  Fires `focus_loss` when the reading
stays false and the current instant is more than 5 seconds past the
recorded start; `int(...)` truncates, which on the positive elapsed time
equals the floor. -/
def focusStep (fls : Option ℚ) (t : TickInput) : Option ℚ × List Event :=
  if t.focus then (none, [])
  else
    match fls with
    | none => (some t.now, [])
    | some t0 =>
        if t.now - t0 > focus_lost_threshold then
          (none, [⟨"focus_loss",
            "Focus lost for " ++ toString (t.now - t0).floor ++ " seconds",
            t.focusConf⟩])
        else (some t0, [])

/-- Face logic (lines 82-97): 10-second debounce for zero faces, immediate
`multiple_faces` for more than one, timer cleared otherwise. -/
def faceStep (nfs : Option ℚ) (t : TickInput) : Option ℚ × List Event :=
  if t.faceCount = 0 then
    match nfs with
    | none => (some t.now, [])
    | some t0 =>
        if t.now - t0 > no_face_threshold then
          (none, [⟨"no_face",
            "No face detected for " ++ toString (t.now - t0).floor ++ " seconds",
            t.noFaceConf⟩])
        else (some t0, [])
  else if t.faceCount > 1 then
    (none, [⟨"multiple_faces", toString t.faceCount ++ " faces detected", t.multiConf⟩])
  else (none, [])

/-- Object detections (lines 100-103): one immediate event per reported
object class. -/
def objectEvents (t : TickInput) : List Event :=
  t.objects.map (fun p => ⟨p.1.str ++ "_detected", p.1.str ++ " detected in frame", p.2⟩)

/-- Drowsiness (lines 106-108): immediate event when reported. -/
def drowsyEvents (t : TickInput) : List Event :=
  if t.drowsy then [⟨"drowsiness", "Signs of drowsiness detected", t.drowsyConf⟩] else []

/-- The detection body of one iteration (lines 64-108), in source order:
focus, faces, objects, drowsiness. -/
def tickBody (s : DetState) (t : TickInput) : DetState × List Event :=
  let f := focusStep s.focus_lost_start t
  let n := faceStep s.no_face_start t
  (⟨f.1, n.1⟩, f.2 ++ n.2 ++ objectEvents t ++ drowsyEvents t)

/-- Why the loop exited: stop event observed at the `while` head (line 47),
`refresh_from_db` raised (lines 54-56), status left "ongoing" (lines
51-53), duration budget exceeded (lines 58-62), or the stop event arrived
during the interruptible wait (lines 114-115). -/
inductive ExitReason
  | stopSignal
  | refreshError
  | statusNotOngoing
  | durationElapsed
  | stopRequestedDuringWait
deriving DecidableEq, Repr

/-- Result of running the loop on a finite stream of tick inputs:
the events logged, the exit reason (`none` while the stream ran out with
the loop still live), and the final debounce state. -/
structure RunResult where
  events : List Event
  exited : Option ExitReason
  finalState : DetState
deriving DecidableEq, Repr

/-- The `while` loop of `DetectionThread.run` (lines 47-115), consuming one
`TickInput` per iteration.  Guard order follows the source: stop event,
status refresh, duration check, detection body, interruptible wait. -/
def runTicks (startTime durationSeconds : ℚ) : DetState → List TickInput → RunResult
  | s, [] => ⟨[], none, s⟩
  | s, t :: rest =>
      if t.stopAtTop then ⟨[], some ExitReason.stopSignal, s⟩
      else if t.refreshOk = false then ⟨[], some ExitReason.refreshError, s⟩
      else if t.status ≠ "ongoing" then ⟨[], some ExitReason.statusNotOngoing, s⟩
      else if t.now - startTime > durationSeconds then ⟨[], some ExitReason.durationElapsed, s⟩
      else
        let step := tickBody s t
        if t.stopDuringWait then ⟨step.2, some ExitReason.stopRequestedDuringWait, step.1⟩
        else
          let r := runTicks startTime durationSeconds step.1 rest
          ⟨step.2 ++ r.events, r.exited, r.finalState⟩

/-- `duration_seconds = self.duration_minutes * 60` (line 39). -/
def duration_seconds (durationMinutes : Nat) : ℚ := durationMinutes * 60

/-- A full `DetectionThread.run` loop from fresh state (lines 38-45). -/
def DetectionThread_run (startTime : ℚ) (durationMinutes : Nat)
    (ticks : List TickInput) : RunResult :=
  runTicks startTime (duration_seconds durationMinutes) initState ticks

/-- The thread's own registry cleanup after the loop exits (lines 117-120):
on any exit path it deletes its id from the global dict; while the loop is
still live nothing happens. -/
def run_exit_cleanup (r : Registry) (interviewId : Nat) (res : RunResult) : Registry :=
  if res.exited.isSome then eraseEntry r interviewId else r

/-- Every `event_type` string the tick body can emit. -/
def emittedTypes : List String :=
  ["focus_loss", "no_face", "multiple_faces", "phone_detected",
   "notes_detected", "device_detected", "drowsiness"]

/-- A tick input on which every detector is quiet: interview ongoing,
candidate attentive, one face, no objects, not drowsy, no stop signals. -/
def quietTick (now : ℚ) : TickInput :=
  { now := now, stopAtTop := false, refreshOk := true, status := "ongoing",
    focus := true, faceCount := 1, objects := [], drowsy := false,
    focusConf := mkRat 4 5, noFaceConf := mkRat 9 10, multiConf := mkRat 9 10,
    drowsyConf := mkRat 7 10, stopDuringWait := false }

/-- A quiet tick except that the focus reading is false, with a given
`random.uniform(0.7, 0.9)` draw. -/
def focusLossTick (now conf : ℚ) : TickInput :=
  { quietTick now with focus := false, focusConf := conf }

/-- The nominal 2-second poll cadence sampling a focus loss lasting
exactly 5.1 seconds (reading false on [0, 5.1), true from 5.1): ticks at
0, 2 and 4 observe it false, the tick at 6 observes it true again. -/
def lossTicks51 : List TickInput :=
  [focusLossTick 0 (mkRat 4 5), focusLossTick 2 (mkRat 4 5), focusLossTick 4 (mkRat 4 5), quietTick 6]

/-- The nominal cadence sampling a focus loss lasting exactly 4.9 seconds
(reading false on [0, 4.9)) followed by attentive readings. -/
def lossTicks49 : List TickInput :=
  [focusLossTick 0 (mkRat 4 5), focusLossTick 2 (mkRat 4 5), focusLossTick 4 (mkRat 4 5), quietTick 6]

/-- The nominal cadence sampling a focus loss lasting 6.1 seconds (reading
false on [0, 6.1): ticks 0, 2, 4 and 6 observe it false, 8 observes it
true), with confidence draw `conf` for the firing tick. -/
def lossTicks61 (conf : ℚ) : List TickInput :=
  [focusLossTick 0 conf, focusLossTick 2 conf, focusLossTick 4 conf,
   focusLossTick 6 conf, quietTick 8]

/-- Quiet ticks at the nominal 2-second cadence: times 0, 2, ..., 2·(n−1). -/
def nominalQuietTicks (n : Nat) : List TickInput :=
  (List.range n).map (fun k => quietTick (2 * (k : ℚ)))

/-! ## Report scoring (src/reports/models.py) and report generation
(src/reports/views.py) -/

/-- The violation-count fields of the `Report` model
(src/reports/models.py lines 8-26) that feed `calculate_integrity_score`.
The presentation-only fields (candidate name, durations, accuracy floats)
play no part in any claim and are omitted. -/
structure Report where
  focus_lost_events : Nat
  suspicious_events : Nat
  no_face_events : Nat
  multiple_faces_events : Nat
  phone_detected_events : Nat
  notes_detected_events : Nat
  device_detected_events : Nat
  drowsiness_events : Nat
  audio_anomaly_events : Nat
deriving DecidableEq, Repr

/-- `Report.calculate_integrity_score`, src/reports/models.py lines 31-57:
base 100, weighted deductions per violation count, clamped at 0. -/
def calculate_integrity_score (rep : Report) : ℤ :=
  max 0 (100 -
    ((rep.focus_lost_events : ℤ) * 2 + (rep.suspicious_events : ℤ) * 5
      + (rep.no_face_events : ℤ) * 3 + (rep.multiple_faces_events : ℤ) * 8
      + (rep.phone_detected_events : ℤ) * 10 + (rep.notes_detected_events : ℤ) * 8
      + (rep.device_detected_events : ℤ) * 6 + (rep.drowsiness_events : ℤ) * 3
      + (rep.audio_anomaly_events : ℤ) * 4))

/-- Rows of the event table belonging to one interview
(`EventLog.objects.filter(interview=interview)`), in primary-key order. -/
def eventsFor (db : EventDb) (interviewId : Nat) : EventDb :=
  db.filter (fun e => e.interview == interviewId)

/-- `events.filter(event_type=ty).count()`. -/
def countType (events : EventDb) (ty : String) : Nat :=
  (events.filter (fun e => e.event_type == ty)).length

/-- The dict built by `get_detection_summary`
(src/detection/detection_engine.py lines 225-242). -/
structure DetectionSummary where
  total_events : Nat
  focus_loss : Nat
  no_face : Nat
  multiple_faces : Nat
  phone_detected : Nat
  notes_detected : Nat
  device_detected : Nat
  drowsiness : Nat
  integrity_score : ℤ
  latest_event : Option ℚ
deriving DecidableEq, Repr

/-- `get_detection_summary(interview)`, lines 225-242.  `latest_event` is
`events.first().timestamp`: Django's `QuerySet.first()` on this unordered
queryset orders by ascending primary key, so it returns the OLDEST row of
the interview — modelled as the head of the pk-ordered filtered list. -/
def get_detection_summary (db : EventDb) (interviewId : Nat) : DetectionSummary :=
  let events := eventsFor db interviewId
  { total_events := events.length
    focus_loss := countType events "focus_loss"
    no_face := countType events "no_face"
    multiple_faces := countType events "multiple_faces"
    phone_detected := countType events "phone_detected"
    notes_detected := countType events "notes_detected"
    device_detected := countType events "device_detected"
    drowsiness := countType events "drowsiness"
    integrity_score := max 0 (100 - (events.length : ℤ) * 5)
    latest_event := events.head?.map (fun e => e.timestamp) }

/-- The per-type counts `generate_report` stores on the `Report` row
(src/reports/views.py lines 33-56); `suspicious_events` counts the types
phone_detected, notes_detected, device_detected and multiple_faces. -/
def generate_report (db : EventDb) (interviewId : Nat) : Report :=
  let events := eventsFor db interviewId
  { focus_lost_events := countType events "focus_lost"
    suspicious_events := (events.filter (fun e =>
        e.event_type == "phone_detected" || e.event_type == "notes_detected"
          || e.event_type == "device_detected" || e.event_type == "multiple_faces")).length
    no_face_events := countType events "no_face"
    multiple_faces_events := countType events "multiple_faces"
    phone_detected_events := countType events "phone_detected"
    notes_detected_events := countType events "notes_detected"
    device_detected_events := countType events "device_detected"
    drowsiness_events := countType events "drowsiness"
    audio_anomaly_events := countType events "audio_anomaly" }

/-- What C9 reads the spec as meaning by `latestEventTimestamp`: the
timestamp of the maximal-timestamp event of the interview (comparison
definition following the spec's words, not the source). -/
def spec_latest_event_timestamp (db : EventDb) (interviewId : Nat) : Option ℚ :=
  ((eventsFor db interviewId).map (fun e => e.timestamp)).max?

/-! ## Concrete fixtures used by witnesses and counterexamples -/

/-- Registry with five active sessions, for the forceStopAll scenario. -/
def fiveSessions : Registry :=
  [(1, ⟨1, 30, false⟩), (2, ⟨2, 30, false⟩), (3, ⟨3, 30, false⟩),
   (4, ⟨4, 30, false⟩), (5, ⟨5, 30, false⟩)]

/-- Aliveness model in which sessions 4 and 5 do not cooperate within the
join timeout (their threads stay alive). -/
def stubbornAlive (s : Session) : Bool :=
  decide (4 ≤ s.interviewId)

/-- Two events of interview 1, timestamps 1 then 2 (primary-key order =
timestamp order). -/
def twoEventDb : EventDb :=
  [⟨1, "focus_lost", "looked away", mkRat 4 5, 1⟩,
   ⟨1, "no_face", "left the frame", mkRat 9 10, 2⟩]

/-- One phone_detected event of interview 1. -/
def phoneDb : EventDb :=
  [⟨1, "phone_detected", "phone detected in frame", mkRat 4 5, 0⟩]


/-! ### Registry lemmas -/

theorem lookupEntry_eraseEntry_self (r : Registry) (id : Nat) :
    lookupEntry (eraseEntry r id) id = none := by
  induction r with
  | nil => rfl
  | cons p r ih =>
      by_cases h : p.1 = id
      · simpa [eraseEntry, List.filter_cons, h] using ih
      · simpa [eraseEntry, List.filter_cons, h, lookupEntry] using ih

theorem countKey_eraseEntry_self (r : Registry) (id : Nat) :
    countKey (eraseEntry r id) id = 0 := by
  induction r with
  | nil => rfl
  | cons p r ih =>
      by_cases h : p.1 = id
      · simpa [countKey, eraseEntry, List.filter_cons, h] using ih
      · simpa [countKey, eraseEntry, List.filter_cons, List.countP_cons, h] using ih

theorem countKey_eraseEntry_le (r : Registry) (id id' : Nat) :
    countKey (eraseEntry r id) id' ≤ countKey r id' := by
  exact List.Sublist.countP_le _ (List.filter_sublist r)

theorem countKey_filter_le (q : Nat × Session → Bool) (r : Registry) (id : Nat) :
    countKey (r.filter q) id ≤ countKey r id := by
  exact List.Sublist.countP_le _ (List.filter_sublist r)

theorem lookupEntry_eq_none_of_countKey_zero (r : Registry) (id : Nat)
    (h : countKey r id = 0) : lookupEntry r id = none := by
  induction r with
  | nil => rfl
  | cons p r ih =>
      by_cases hp : p.1 = id
      · exfalso
        simp [countKey, List.countP_cons, hp] at h
      · simp only [lookupEntry, hp, if_false]
        exact ih (by simpa [countKey, List.countP_cons, hp] using h)

theorem countKey_eq_zero_of_lookupEntry_none (r : Registry) (id : Nat)
    (h : lookupEntry r id = none) : countKey r id = 0 := by
  induction r with
  | nil => rfl
  | cons p r ih =>
      by_cases hp : p.1 = id
      · simp [lookupEntry, hp] at h
      · simp only [lookupEntry, hp, if_false] at h
        simpa [countKey, List.countP_cons, hp] using ih h

theorem stop_detection_lookup_self_none (r : Registry) (i : Nat) (a : Bool) :
    lookupEntry (stop_detection r i a).1 i = none := by
  cases hcase : lookupEntry r i with
  | some s =>
      simp only [stop_detection, hcase]
      exact lookupEntry_eraseEntry_self r i
  | none => simpa [stop_detection, hcase] using hcase

theorem lookupEntry_append_of_none (r l : Registry) (id : Nat)
    (h : lookupEntry r id = none) : lookupEntry (r ++ l) id = lookupEntry l id := by
  induction r with
  | nil => rfl
  | cons p r ih =>
      by_cases hp : p.1 = id
      · simp [lookupEntry, hp] at h
      · simp only [lookupEntry, hp, if_false] at h
        simpa [lookupEntry, hp] using ih h

theorem start_detection_registry_eq (r : Registry) (i d : Nat) (a : Bool) :
    (start_detection r i d a).1
      = (stop_detection r i a).1 ++ [(i, ⟨i, d, false⟩)] := by
  have hnone : lookupEntry (stop_detection r i a).1 i = none :=
    stop_detection_lookup_self_none r i a
  simp [start_detection, insertEntry, hnone]

theorem countKey_start_detection_self (r : Registry) (i d : Nat) (a : Bool) :
    countKey (start_detection r i d a).1 i = 1 := by
  have herase : countKey (eraseEntry r i) i = 0 := countKey_eraseEntry_self r i
  have hlook : lookupEntry (eraseEntry r i) i = none := lookupEntry_eraseEntry_self r i
  cases hcase : lookupEntry r i with
  | some s =>
      simp only [start_detection, stop_detection, hcase]
      simp only [insertEntry, hlook, Option.isSome_none, Bool.false_eq_true, if_false]
      simpa [countKey, List.countP_append] using herase
  | none =>
      simp only [start_detection, stop_detection, hcase]
      simp only [insertEntry, hcase, Option.isSome_none, Bool.false_eq_true, if_false]
      have h0 : countKey r i = 0 := countKey_eq_zero_of_lookupEntry_none r i hcase
      simpa [countKey, List.countP_append] using h0

theorem foldl_erase_nil (l : List (Nat × Session)) :
    ∀ a : Registry, (∀ q ∈ a, q.1 ∈ l.map Prod.fst) →
      l.foldl (fun acc p => eraseEntry acc p.1) a = [] := by
  induction l with
  | nil =>
      intro a h
      cases a with
      | nil => rfl
      | cons q a => exact absurd (h q (List.mem_cons_self q a)) (by simp)
  | cons p l ih =>
      intro a h
      simp only [List.foldl_cons]
      apply ih
      intro q hq
      have hqa : q ∈ a ∧ (q.1 != p.1) = true := by
        simpa [eraseEntry, List.mem_filter] using hq
      have hmem := h q hqa.1
      simp only [List.map_cons, List.mem_cons] at hmem
      rcases hmem with h1 | h2
      · exact absurd h1 (by simpa [bne_iff_ne] using hqa.2)
      · exact h2

theorem force_stop_all_detection_eq_nil (r : Registry) :
    force_stop_all_detection r = [] := by
  apply foldl_erase_nil
  intro q hq
  exact List.mem_map_of_mem Prod.fst hq

theorem countKey_applyOp_le (r : Registry) (op : RegistryOp) (id : Nat)
    (h : countKey r id ≤ 1) : countKey (applyOp r op) id ≤ 1 := by
  cases op with
  | opStart i d a =>
      by_cases hid : id = i
      · subst hid
        exact Nat.le_of_eq (countKey_start_detection_self r id d a)
      · show countKey (start_detection r i d a).1 id ≤ 1
        rw [start_detection_registry_eq]
        have hstop : countKey (stop_detection r i a).1 id ≤ 1 := by
          cases hcase : lookupEntry r i with
          | some s =>
              simp only [stop_detection, hcase]
              exact le_trans (countKey_eraseEntry_le r i id) h
          | none => simpa [stop_detection, hcase] using h
        have hsingle : countKey [(i, (⟨i, d, false⟩ : Session))] id = 0 := by
          simp [countKey, List.countP_cons, Ne.symm hid]
        calc countKey ((stop_detection r i a).1 ++ [(i, ⟨i, d, false⟩)]) id
            = countKey (stop_detection r i a).1 id
              + countKey [(i, (⟨i, d, false⟩ : Session))] id := by
              simp [countKey, List.countP_append]
          _ ≤ 1 := by rw [hsingle]; simpa using hstop
  | opStop i a =>
      show countKey (stop_detection r i a).1 id ≤ 1
      cases hcase : lookupEntry r i with
      | some s =>
          simp only [stop_detection, hcase]
          exact le_trans (countKey_eraseEntry_le r i id) h
      | none => simpa [stop_detection, hcase] using h
  | opForceStopAll =>
      show countKey (force_stop_all_detection r) id ≤ 1
      rw [force_stop_all_detection_eq_nil]
      simp [countKey]
  | opCleanup aliveOf =>
      exact le_trans (countKey_filter_le _ r id) h

theorem countKey_opsFold_le (ops : List RegistryOp) (id : Nat) :
    countKey (ops.foldl applyOp []) id ≤ 1 := by
  have general : ∀ r : Registry, (∀ i, countKey r i ≤ 1) →
      ∀ i, countKey (ops.foldl applyOp r) i ≤ 1 := by
    induction ops with
    | nil => intro r h; exact h
    | cons op ops ih =>
        intro r h i
        exact ih (applyOp r op) (fun j => countKey_applyOp_le r op j (h j)) i
  exact general [] (fun i => by simp [countKey]) id

theorem is_detection_active_eraseEntry (aliveOf : Session → Bool) (r : Registry) (id : Nat) :
    is_detection_active aliveOf (eraseEntry r id) id = false := by
  simp [is_detection_active, lookupEntry_eraseEntry_self]

/-! ### Detection-loop lemmas -/

theorem focusStep_no_fire (T c : ℚ) (hc : c ≤ focus_lost_threshold) (t : TickInput)
    (fls : Option ℚ)
    (ht : t.focus = false → T ≤ t.now ∧ t.now < T + c)
    (hinv : fls = none ∨ ∃ t0, fls = some t0 ∧ T ≤ t0 ∧ t0 < T + c) :
    (focusStep fls t).2 = []
    ∧ ((focusStep fls t).1 = none
        ∨ ∃ t0, (focusStep fls t).1 = some t0 ∧ T ≤ t0 ∧ t0 < T + c) := by
  by_cases hf : t.focus = true
  · constructor
    · simp [focusStep, hf]
    · left
      simp [focusStep, hf]
  · simp only [Bool.not_eq_true] at hf
    obtain ⟨hT, hTc⟩ := ht hf
    rcases hinv with hnone | ⟨t0, hfls, h0, h0c⟩
    · subst hnone
      constructor
      · simp [focusStep, hf]
      · right
        exact ⟨t.now, by simp [focusStep, hf], hT, hTc⟩
    · subst hfls
      have hnofire : ¬ (t.now - t0 > focus_lost_threshold) := by
        have hlt : t.now - t0 < c := by linarith
        exact not_lt.mpr (le_of_lt (lt_of_lt_of_le hlt hc))
      constructor
      · simp [focusStep, hf, hnofire]
      · right
        exact ⟨t0, by simp [focusStep, hf, hnofire], h0, h0c⟩

theorem filter_focus_faceStep (nfs : Option ℚ) (t : TickInput) :
    (faceStep nfs t).2.filter (fun e => e.event_type == "focus_loss") = [] := by
  by_cases h0 : t.faceCount = 0
  · cases nfs with
    | none => simp [faceStep, h0]
    | some t0 =>
        by_cases hgt : t.now - t0 > no_face_threshold
        · simp only [faceStep, h0, if_true, hgt, if_pos]
          rfl
        · simp [faceStep, h0, hgt]
  · by_cases h1 : t.faceCount > 1
    · simp only [faceStep, h0, if_false, h1, if_pos]
      rfl
    · simp [faceStep, h0, h1]

theorem filter_focus_objList (l : List (ObjKind × ℚ)) :
    (l.map (fun p =>
        (⟨p.1.str ++ "_detected", p.1.str ++ " detected in frame", p.2⟩ : Event))).filter
      (fun e => e.event_type == "focus_loss") = [] := by
  induction l with
  | nil => rfl
  | cons p l ih =>
      obtain ⟨k, q⟩ := p
      rw [List.map_cons, List.filter_cons]
      have hne : (((k.str ++ "_detected" : String)) == "focus_loss") = false := by
        cases k <;> rfl
      simp only [hne]
      simpa using ih

theorem filter_focus_drowsyEvents (t : TickInput) :
    (drowsyEvents t).filter (fun e => e.event_type == "focus_loss") = [] := by
  by_cases hd : t.drowsy = true
  · simp only [drowsyEvents, hd, if_true]
    rfl
  · simp [drowsyEvents, hd]

theorem runTicks_no_focus_loss (T c : ℚ) (hc : c ≤ focus_lost_threshold) :
    ∀ (ticks : List TickInput) (startTime durSec : ℚ) (fls nfs : Option ℚ),
      (∀ t ∈ ticks, t.focus = false → T ≤ t.now ∧ t.now < T + c) →
      (fls = none ∨ ∃ t0, fls = some t0 ∧ T ≤ t0 ∧ t0 < T + c) →
      (runTicks startTime durSec ⟨fls, nfs⟩ ticks).events.filter
        (fun e => e.event_type == "focus_loss") = [] := by
  intro ticks
  induction ticks with
  | nil => intro startTime durSec fls nfs hwin hinv; rfl
  | cons t rest ih =>
      intro startTime durSec fls nfs hwin hinv
      have hwt : t.focus = false → T ≤ t.now ∧ t.now < T + c :=
        hwin t (List.mem_cons_self t rest)
      have hwrest : ∀ t' ∈ rest, t'.focus = false → T ≤ t'.now ∧ t'.now < T + c :=
        fun t' ht' => hwin t' (List.mem_cons_of_mem t ht')
      obtain ⟨hfe, hfinv⟩ := focusStep_no_fire T c hc t fls hwt hinv
      have hbody : ((tickBody ⟨fls, nfs⟩ t).2).filter
          (fun e => e.event_type == "focus_loss") = [] := by
        simp only [tickBody, List.filter_append]
        rw [hfe, filter_focus_faceStep]
        simp only [List.filter_nil, List.nil_append]
        rw [show (objectEvents t).filter (fun e => e.event_type == "focus_loss") = []
            from filter_focus_objList t.objects,
          filter_focus_drowsyEvents]
        rfl
      by_cases h1 : t.stopAtTop = true
      · simp [runTicks, h1]
      · by_cases h2 : t.refreshOk = false
        · simp [runTicks, h1, h2]
        · by_cases h3 : t.status ≠ "ongoing"
          · simp [runTicks, h1, h2, h3]
          · by_cases h4 : t.now - startTime > durSec
            · simp [runTicks, h1, h2, h3, h4]
            · have hrec := ih startTime durSec (focusStep fls t).1 (faceStep nfs t).1
                hwrest hfinv
              by_cases h5 : t.stopDuringWait = true
              · have hev : (runTicks startTime durSec ⟨fls, nfs⟩ (t :: rest)).events
                    = (tickBody ⟨fls, nfs⟩ t).2 := by
                  simp [runTicks, h1, h2, h3, h4, h5]
                rw [hev, hbody]
              · have hev : (runTicks startTime durSec ⟨fls, nfs⟩ (t :: rest)).events
                    = (tickBody ⟨fls, nfs⟩ t).2
                      ++ (runTicks startTime durSec (tickBody ⟨fls, nfs⟩ t).1 rest).events := by
                  simp [runTicks, h1, h2, h3, h4, h5]
                rw [hev, List.filter_append, hbody]
                have hstate : (tickBody ⟨fls, nfs⟩ t).1
                    = (⟨(focusStep fls t).1, (faceStep nfs t).1⟩ : DetState) := rfl
                rw [hstate, hrec]
                rfl

theorem focusStep_fire_fields (fls : Option ℚ) (t : TickInput) (e : Event)
    (h : (focusStep fls t).2 = [e]) :
    e.event_type = "focus_loss" ∧ e.confidence_score = t.focusConf := by
  by_cases hf : t.focus = true
  · simp [focusStep, hf] at h
  · simp only [Bool.not_eq_true] at hf
    cases fls with
    | none => simp [focusStep, hf] at h
    | some t0 =>
        by_cases hgt : t.now - t0 > focus_lost_threshold
        · simp only [focusStep, hf, Bool.false_eq_true, if_false, hgt, if_pos,
            List.cons.injEq, and_true] at h
          constructor <;> rw [← h]
        · simp [focusStep, hf, hgt] at h

theorem types_all_focusStep (fls : Option ℚ) (t : TickInput) :
    (((focusStep fls t).2.map (fun e => e.event_type)).all
      (fun ty => emittedTypes.contains ty)) = true := by
  by_cases hf : t.focus = true
  · simp [focusStep, hf]
  · simp only [Bool.not_eq_true] at hf
    cases fls with
    | none => simp [focusStep, hf]
    | some t0 =>
        by_cases hgt : t.now - t0 > focus_lost_threshold
        · simp only [focusStep, hf, Bool.false_eq_true, if_false, hgt, if_pos]
          rfl
        · simp [focusStep, hf, hgt]

theorem types_all_faceStep (nfs : Option ℚ) (t : TickInput) :
    (((faceStep nfs t).2.map (fun e => e.event_type)).all
      (fun ty => emittedTypes.contains ty)) = true := by
  by_cases h0 : t.faceCount = 0
  · cases nfs with
    | none => simp [faceStep, h0]
    | some t0 =>
        by_cases hgt : t.now - t0 > no_face_threshold
        · simp only [faceStep, h0, if_true, hgt, if_pos]
          rfl
        · simp [faceStep, h0, hgt]
  · by_cases h1 : t.faceCount > 1
    · simp only [faceStep, h0, if_false, h1, if_pos]
      rfl
    · simp [faceStep, h0, h1]

theorem types_all_objList (l : List (ObjKind × ℚ)) :
    (((l.map (fun p =>
        (⟨p.1.str ++ "_detected", p.1.str ++ " detected in frame", p.2⟩ : Event))).map
          (fun e => e.event_type)).all (fun ty => emittedTypes.contains ty)) = true := by
  induction l with
  | nil => rfl
  | cons p l ih =>
      obtain ⟨k, q⟩ := p
      rw [List.map_cons, List.map_cons, List.all_cons]
      have hk : (emittedTypes.contains (k.str ++ "_detected")) = true := by
        cases k <;> rfl
      show (emittedTypes.contains (k.str ++ "_detected") && _) = true
      rw [hk, Bool.true_and]
      exact ih

theorem types_all_drowsyEvents (t : TickInput) :
    (((drowsyEvents t).map (fun e => e.event_type)).all
      (fun ty => emittedTypes.contains ty)) = true := by
  by_cases hd : t.drowsy = true
  · simp only [drowsyEvents, hd, if_true]
    rfl
  · simp [drowsyEvents, hd]

theorem types_all_tickBody (s : DetState) (t : TickInput) :
    (((tickBody s t).2.map (fun e => e.event_type)).all
      (fun ty => emittedTypes.contains ty)) = true := by
  simp only [tickBody, List.map_append, List.all_append]
  rw [types_all_focusStep, types_all_faceStep,
    show ((objectEvents t).map (fun e => e.event_type)).all
        (fun ty => emittedTypes.contains ty) = true from types_all_objList t.objects,
    types_all_drowsyEvents]
  rfl

theorem runTicks_types_all (startTime durSec : ℚ) :
    ∀ (ticks : List TickInput) (s : DetState),
      (((runTicks startTime durSec s ticks).events.map (fun e => e.event_type)).all
        (fun ty => emittedTypes.contains ty)) = true := by
  intro ticks
  induction ticks with
  | nil => intro s; rfl
  | cons t rest ih =>
      intro s
      by_cases h1 : t.stopAtTop = true
      · simp [runTicks, h1]
      · by_cases h2 : t.refreshOk = false
        · simp [runTicks, h1, h2]
        · by_cases h3 : t.status ≠ "ongoing"
          · simp [runTicks, h1, h2, h3]
          · by_cases h4 : t.now - startTime > durSec
            · simp [runTicks, h1, h2, h3, h4]
            · by_cases h5 : t.stopDuringWait = true
              · have hev : (runTicks startTime durSec s (t :: rest)).events
                    = (tickBody s t).2 := by
                  simp [runTicks, h1, h2, h3, h4, h5]
                rw [hev, types_all_tickBody s t]
              · have hev : (runTicks startTime durSec s (t :: rest)).events
                    = (tickBody s t).2
                      ++ (runTicks startTime durSec (tickBody s t).1 rest).events := by
                  simp [runTicks, h1, h2, h3, h4, h5]
                rw [hev, List.map_append, List.all_append, types_all_tickBody s t,
                  ih (tickBody s t).1]
                rfl

/-! ## Claim theorems over the registry -/

/-- Claim C1: for every interview id and every sequence of registry
operations starting from the empty registry, at most one session is
registered for that id at any instant; `start_detection` on an id that
already has an entry first performs `stop_detection` on that entry (the
old session comes back signalled), and after any `start_detection` call
exactly one session — the fresh one — is registered for the id. -/
theorem C1_at_most_one_session (ops : List RegistryOp) (interviewId : Nat)
    (r : Registry) (durationMinutes : Nat) (oldAlive : Bool) :
    countKey (ops.foldl applyOp []) interviewId ≤ 1
    ∧ countKey (start_detection r interviewId durationMinutes oldAlive).1 interviewId = 1
    ∧ lookupEntry (start_detection r interviewId durationMinutes oldAlive).1 interviewId
        = some ⟨interviewId, durationMinutes, false⟩
    ∧ (∀ s, lookupEntry r interviewId = some s →
        (start_detection r interviewId durationMinutes oldAlive).2.2
          = some { s with stopRequested := true }) := by
  refine ⟨countKey_opsFold_le ops interviewId,
    countKey_start_detection_self r interviewId durationMinutes oldAlive, ?_, ?_⟩
  · rw [start_detection_registry_eq]
    rw [lookupEntry_append_of_none _ _ _
      (stop_detection_lookup_self_none r interviewId oldAlive)]
    simp [lookupEntry]
  · intro s hs
    simp [start_detection, stop_detection, hs]

/-- Witness for C1: starting interview 7 while a session for 7 is already
registered returns that old session with its stop flag signalled. -/
theorem C1_at_most_one_session_witness :
    (start_detection [(7, ⟨7, 30, false⟩)] 7 15 false).2.2 = some ⟨7, 30, true⟩ :=
  (C1_at_most_one_session [] 7 [(7, ⟨7, 30, false⟩)] 15 false).2.2.2
    ⟨7, 30, false⟩ (by decide)

/-- Claim C4: `stop_detection` on an absent id is a no-op reported as
nothing-to-stop; on a present id it signals the session's stop event,
reports either a clean stop or the 10-second-timeout forced removal, and
removes the entry; in every case the returned registry has no entry for
the id. -/
theorem C4_stop_detection_contract (r : Registry) (interviewId : Nat) (stillAlive : Bool) :
    lookupEntry (stop_detection r interviewId stillAlive).1 interviewId = none
    ∧ (lookupEntry r interviewId = none →
        stop_detection r interviewId stillAlive = (r, none, StopReport.nothingToStop))
    ∧ (∀ s, lookupEntry r interviewId = some s →
        (stop_detection r interviewId stillAlive).2.1 = some { s with stopRequested := true }
        ∧ (stop_detection r interviewId stillAlive).2.2
            = (if stillAlive then StopReport.timedOutForced else StopReport.stoppedCleanly)
        ∧ (stop_detection r interviewId stillAlive).1 = eraseEntry r interviewId)
    ∧ stop_join_timeout = 10 := by
  refine ⟨stop_detection_lookup_self_none r interviewId stillAlive, ?_, ?_, rfl⟩
  · intro h
    simp [stop_detection, h]
  · intro s hs
    refine ⟨?_, ?_, ?_⟩ <;> simp [stop_detection, hs]

/-- Witness for C4: stopping interview 3 whose thread outlives the join
timeout still returns the signalled session. -/
theorem C4_stop_detection_contract_witness :
    (stop_detection [(3, ⟨3, 30, false⟩)] 3 true).2.1 = some ⟨3, 30, true⟩ :=
  ((C4_stop_detection_contract [(3, ⟨3, 30, false⟩)] 3 true).2.2.1
    ⟨3, 30, false⟩ (by decide)).1

/-- Claim C5: `force_stop_all_detection` signals every registered session,
joins each with the 2-second per-entry timeout, and always leaves the
registry empty with an active count of 0 — even in the concrete 5-session
scenario where sessions 4 and 5 stay alive past their join timeout. -/
theorem C5_force_stop_all (r : Registry) (aliveOf : Session → Bool) :
    force_stop_all_detection r = []
    ∧ get_active_detection_count aliveOf (force_stop_all_detection r) = 0
    ∧ force_stop_all_signalled r = r.map Prod.fst
    ∧ force_join_timeout = 2
    ∧ force_stop_all_detection fiveSessions = []
    ∧ get_active_detection_count stubbornAlive (force_stop_all_detection fiveSessions) = 0 := by
  have h := force_stop_all_detection_eq_nil r
  refine ⟨h, ?_, rfl, rfl, by decide, by decide⟩
  rw [h]
  rfl

/-- Claim C6: `calculate_integrity_score` equals
max(0, 100 − (2·focus_lost + 5·suspicious + 3·no_face + 8·multiple_faces +
10·phone + 8·notes + 6·device + 3·drowsiness + 4·audio_anomaly)); it lies
in [0,100], is 100 on all-zero counts, and is non-increasing when any
individual count increases. -/
theorem C6_integrity_scorer (rep rep' : Report) :
    calculate_integrity_score rep
      = max 0 (100 - (2 * (rep.focus_lost_events : ℤ) + 5 * (rep.suspicious_events : ℤ)
          + 3 * (rep.no_face_events : ℤ) + 8 * (rep.multiple_faces_events : ℤ)
          + 10 * (rep.phone_detected_events : ℤ) + 8 * (rep.notes_detected_events : ℤ)
          + 6 * (rep.device_detected_events : ℤ) + 3 * (rep.drowsiness_events : ℤ)
          + 4 * (rep.audio_anomaly_events : ℤ)))
    ∧ 0 ≤ calculate_integrity_score rep
    ∧ calculate_integrity_score rep ≤ 100
    ∧ calculate_integrity_score ⟨0, 0, 0, 0, 0, 0, 0, 0, 0⟩ = 100
    ∧ (rep.focus_lost_events ≤ rep'.focus_lost_events →
        rep.suspicious_events ≤ rep'.suspicious_events →
        rep.no_face_events ≤ rep'.no_face_events →
        rep.multiple_faces_events ≤ rep'.multiple_faces_events →
        rep.phone_detected_events ≤ rep'.phone_detected_events →
        rep.notes_detected_events ≤ rep'.notes_detected_events →
        rep.device_detected_events ≤ rep'.device_detected_events →
        rep.drowsiness_events ≤ rep'.drowsiness_events →
        rep.audio_anomaly_events ≤ rep'.audio_anomaly_events →
        calculate_integrity_score rep' ≤ calculate_integrity_score rep) := by
  refine ⟨?_, ?_, ?_, by decide, ?_⟩
  · unfold calculate_integrity_score
    congr 1
    ring
  · exact le_max_left 0 _
  · unfold calculate_integrity_score
    have hD : (0 : ℤ) ≤ (rep.focus_lost_events : ℤ) * 2 + (rep.suspicious_events : ℤ) * 5
        + (rep.no_face_events : ℤ) * 3 + (rep.multiple_faces_events : ℤ) * 8
        + (rep.phone_detected_events : ℤ) * 10 + (rep.notes_detected_events : ℤ) * 8
        + (rep.device_detected_events : ℤ) * 6 + (rep.drowsiness_events : ℤ) * 3
        + (rep.audio_anomaly_events : ℤ) * 4 := by positivity
    exact max_le (by norm_num) (by linarith)
  · intro h1 h2 h3 h4 h5 h6 h7 h8 h9
    unfold calculate_integrity_score
    apply max_le_max (le_refl 0)
    apply sub_le_sub_left
    gcongr

/-- Witness for C6's monotonicity conjunct at concrete reports. -/
theorem C6_integrity_scorer_witness :
    calculate_integrity_score ⟨2, 1, 0, 0, 1, 0, 0, 0, 0⟩
      ≤ calculate_integrity_score ⟨1, 1, 0, 0, 0, 0, 0, 0, 0⟩ :=
  (C6_integrity_scorer ⟨1, 1, 0, 0, 0, 0, 0, 0, 0⟩ ⟨2, 1, 0, 0, 1, 0, 0, 0, 0⟩).2.2.2.2
    (by decide) (by decide) (by decide) (by decide) (by decide)
    (by decide) (by decide) (by decide) (by decide)

/-- Claim C9 (code bug): `get_detection_summary` fills `latest_event` from
`events.first()`, which on the unordered queryset is the OLDEST row, so on
an interview with events at timestamps 1 and 2 the code yields 1 while the
claim demands the maximal timestamp 2; on an interview with no events it
is indeed null. -/
theorem C9_latest_event_is_earliest :
    (get_detection_summary twoEventDb 1).latest_event = some 1
    ∧ spec_latest_event_timestamp twoEventDb 1 = some 2
    ∧ (some (1 : ℚ) ≠ some (2 : ℚ))
    ∧ (get_detection_summary [] 1).latest_event = none := by
  refine ⟨by decide, by decide, by decide, rfl⟩

/-- Claim C10: the summary's integrity score is max(0, 100 − 5·totalEvents),
depends only on the number of events (not their types), and can differ
from the per-type weighted `calculate_integrity_score` over the same
events: one phone_detected event scores 95 in the summary but 85 through
the report weights. -/
theorem C10_summary_score_only_counts :
    (∀ (db : EventDb) (i : Nat),
        (get_detection_summary db i).integrity_score
          = max 0 (100 - 5 * ((get_detection_summary db i).total_events : ℤ)))
    ∧ (∀ (db db' : EventDb) (i i' : Nat),
        (eventsFor db i).length = (eventsFor db' i').length →
        (get_detection_summary db i).integrity_score
          = (get_detection_summary db' i').integrity_score)
    ∧ (get_detection_summary phoneDb 1).integrity_score = 95
    ∧ calculate_integrity_score (generate_report phoneDb 1) = 85
    ∧ (95 : ℤ) ≠ 85 := by
  refine ⟨?_, ?_, by decide, by decide, by decide⟩
  · intro db i
    show max 0 (100 - ((eventsFor db i).length : ℤ) * 5)
      = max 0 (100 - 5 * ((eventsFor db i).length : ℤ))
    congr 1
    ring
  · intro db db' i i' h
    show max 0 (100 - ((eventsFor db i).length : ℤ) * 5)
      = max 0 (100 - ((eventsFor db' i').length : ℤ) * 5)
    rw [h]

/-- Witness for C10's count-only conjunct: two unrelated single-event
tables get the same summary score. -/
theorem C10_summary_score_only_counts_witness :
    (get_detection_summary phoneDb 1).integrity_score
      = (get_detection_summary [⟨5, "drowsiness", "droopy eyes", mkRat 1 2, 3⟩] 5).integrity_score :=
  (C10_summary_score_only_counts).2.1 phoneDb [⟨5, "drowsiness", "droopy eyes", mkRat 1 2, 3⟩] 1 5
    (by decide)

/-- Claim C3: when a tick observes the interview status to be anything
other than "ongoing", the loop exits at that very tick with no detection
calls and no events, the thread's own cleanup removes its registry entry,
and `is_detection_active` turns false for every aliveness model — all
without any explicit stop call; 2 seconds is the poll interval bounding
how stale the observation can be. -/
theorem C3_status_change_stops_session (startTime durationSeconds : ℚ) (s : DetState)
    (t : TickInput) (rest : List TickInput) (r : Registry) (interviewId : Nat)
    (aliveOf : Session → Bool)
    (hstop : t.stopAtTop = false) (hok : t.refreshOk = true) (hst : t.status ≠ "ongoing") :
    runTicks startTime durationSeconds s (t :: rest)
      = ⟨[], some ExitReason.statusNotOngoing, s⟩
    ∧ is_detection_active aliveOf
        (run_exit_cleanup r interviewId (runTicks startTime durationSeconds s (t :: rest)))
        interviewId = false
    ∧ poll_interval = 2 := by
  have hrun : runTicks startTime durationSeconds s (t :: rest)
      = ⟨[], some ExitReason.statusNotOngoing, s⟩ := by
    simp [runTicks, hstop, hok, hst]
  refine ⟨hrun, ?_, rfl⟩
  rw [hrun]
  simp only [run_exit_cleanup, Option.isSome_some, if_true]
  exact is_detection_active_eraseEntry aliveOf r interviewId

/-- Witness for C3: a session with a registered entry observes status
"completed" at a tick and is immediately gone. -/
theorem C3_status_change_stops_session_witness :
    runTicks 0 1800 initState [{ quietTick 10 with status := "completed" }]
      = ⟨[], some ExitReason.statusNotOngoing, initState⟩
    ∧ is_detection_active (fun _ => true)
        (run_exit_cleanup [(1, ⟨1, 30, false⟩)] 1
          (runTicks 0 1800 initState [{ quietTick 10 with status := "completed" }])) 1 = false
    ∧ poll_interval = 2 :=
  C3_status_change_stops_session 0 1800 initState
    { quietTick 10 with status := "completed" } [] [(1, ⟨1, 30, false⟩)] 1 (fun _ => true)
    rfl rfl (by decide)

/-- Claim C7 (amended): the loop exits with `durationElapsed` at the first
tick whose elapsed time strictly exceeds the duration budget, and the
thread's cleanup removes the registry entry on that exit path; with
duration = 1 minute (budget 60 s) under the nominal 2-second cadence the
exit happens at the tick at 62 seconds — i.e. after 62+ seconds of wall
time, not 61+ — after which the session is no longer active and the
registry holds no entry for it. -/
theorem C7_duration_budget_exit (startTime durSec : ℚ) (s : DetState) (t : TickInput)
    (rest : List TickInput) (r : Registry) (interviewId : Nat) (aliveOf : Session → Bool)
    (hstop : t.stopAtTop = false) (hok : t.refreshOk = true) (hst : t.status = "ongoing")
    (hdur : t.now - startTime > durSec) :
    runTicks startTime durSec s (t :: rest) = ⟨[], some ExitReason.durationElapsed, s⟩
    ∧ is_detection_active aliveOf
        (run_exit_cleanup r interviewId (runTicks startTime durSec s (t :: rest)))
        interviewId = false
    ∧ duration_seconds 1 = 60
    ∧ (DetectionThread_run 0 1 (nominalQuietTicks 32)).exited
        = some ExitReason.durationElapsed
    ∧ (DetectionThread_run 0 1 (nominalQuietTicks 32)).events = []
    ∧ is_detection_active (fun _ => true)
        (run_exit_cleanup [(1, ⟨1, 1, false⟩)] 1
          (DetectionThread_run 0 1 (nominalQuietTicks 32))) 1 = false := by
  have hrun : runTicks startTime durSec s (t :: rest)
      = ⟨[], some ExitReason.durationElapsed, s⟩ := by
    have hst' : ¬ t.status ≠ "ongoing" := by simp [hst]
    simp [runTicks, hstop, hok, hst', hdur]
  refine ⟨hrun, ?_, of_decide_eq_true (by with_unfolding_all rfl),
    of_decide_eq_true (by with_unfolding_all rfl), of_decide_eq_true (by with_unfolding_all rfl),
    of_decide_eq_true (by with_unfolding_all rfl)⟩
  rw [hrun]
  simp only [run_exit_cleanup, Option.isSome_some, if_true]
  exact is_detection_active_eraseEntry aliveOf r interviewId

/-- Witness for C7 at a concrete over-budget tick. -/
theorem C7_duration_budget_exit_witness :
    runTicks 0 60 initState [quietTick 62] = ⟨[], some ExitReason.durationElapsed, initState⟩
    ∧ is_detection_active (fun _ => true)
        (run_exit_cleanup [(1, ⟨1, 1, false⟩)] 1 (runTicks 0 60 initState [quietTick 62]))
        1 = false
    ∧ duration_seconds 1 = 60
    ∧ (DetectionThread_run 0 1 (nominalQuietTicks 32)).exited
        = some ExitReason.durationElapsed
    ∧ (DetectionThread_run 0 1 (nominalQuietTicks 32)).events = []
    ∧ is_detection_active (fun _ => true)
        (run_exit_cleanup [(1, ⟨1, 1, false⟩)] 1
          (DetectionThread_run 0 1 (nominalQuietTicks 32))) 1 = false :=
  C7_duration_budget_exit 0 60 initState (quietTick 62) [] [(1, ⟨1, 1, false⟩)] 1
    (fun _ => true) rfl rfl rfl (by norm_num [quietTick])

/-- Counterexample to C7 as stated: with duration = 1 minute under the
nominal 2-second cadence, every poll tick of the first 61 seconds (times
0, 2, ..., 60) has been processed and the loop is still live (at the tick
at 60 the guard `elapsed > 60` is false), so at wall time 61 the session
is still active and still registered; it first deregisters at the next
tick, at 62 seconds. -/
theorem C7_counterexample :
    ((nominalQuietTicks 31).map TickInput.now).all (fun x => decide (x ≤ 61)) = true
    ∧ (DetectionThread_run 0 1 (nominalQuietTicks 31)).exited = none
    ∧ is_detection_active (fun _ => true)
        (run_exit_cleanup [(1, ⟨1, 1, false⟩)] 1
          (DetectionThread_run 0 1 (nominalQuietTicks 31))) 1 = true :=
  ⟨of_decide_eq_true (by with_unfolding_all rfl), of_decide_eq_true (by with_unfolding_all rfl),
    of_decide_eq_true (by with_unfolding_all rfl)⟩

/-- Claim C2 (amended): a focus-lost reading confined to a window of
length 4.9 seconds (shorter than the 5-second threshold) produces zero
focus events over every tick schedule; under the nominal 2-second poll
cadence a loss lasting exactly 5.1 seconds also produces zero events,
because an event fires only at a tick observing the reading false more
than 5 seconds after the first tick that observed it false; a loss
lasting 6.1 seconds (observed false at the ticks at 0, 2, 4 and 6) fires
exactly one event, of type `focus_loss`, with the elapsed whole seconds
in its description; whenever the debounce fires, the event's confidence
is the tick's `random.uniform(0.7, 0.9)` draw, hence lies in [0.7, 0.9). -/
theorem C2_focus_debounce :
    (∀ (ticks : List TickInput) (startTime durSec T : ℚ),
        (∀ t ∈ ticks, t.focus = false → T ≤ t.now ∧ t.now < T + mkRat 49 10) →
        (runTicks startTime durSec initState ticks).events.filter
          (fun e => e.event_type == "focus_loss") = [])
    ∧ (DetectionThread_run 0 30 lossTicks49).events = []
    ∧ (DetectionThread_run 0 30 lossTicks51).events = []
    ∧ (DetectionThread_run 0 30 (lossTicks61 (mkRat 4 5))).events
        = [⟨"focus_loss", "Focus lost for 6 seconds", mkRat 4 5⟩]
    ∧ (mkRat 7 10 ≤ mkRat 4 5 ∧ mkRat 4 5 < mkRat 9 10)
    ∧ (∀ (fls : Option ℚ) (t : TickInput) (e : Event),
        (focusStep fls t).2 = [e] →
        mkRat 7 10 ≤ t.focusConf → t.focusConf < mkRat 9 10 →
        e.event_type = "focus_loss"
          ∧ mkRat 7 10 ≤ e.confidence_score ∧ e.confidence_score < mkRat 9 10) := by
  refine ⟨?_, of_decide_eq_true (by with_unfolding_all rfl), of_decide_eq_true (by with_unfolding_all rfl),
    of_decide_eq_true (by with_unfolding_all rfl), of_decide_eq_true (by with_unfolding_all rfl), ?_⟩
  · intro ticks startTime durSec T hwin
    exact runTicks_no_focus_loss T (mkRat 49 10) (by decide) ticks
      startTime durSec none none hwin (Or.inl rfl)
  · intro fls t e h h1 h2
    obtain ⟨hty, hconf⟩ := focusStep_fire_fields fls t e h
    exact ⟨hty, hconf ▸ h1, hconf ▸ h2⟩

/-- Witness for C2: the 4.9-second loss sampled at the nominal cadence
satisfies the window hypothesis and yields no focus event, and the firing
tick of the 6.1-second loss yields an in-range confidence. -/
theorem C2_focus_debounce_witness :
    (runTicks 0 1800 initState lossTicks49).events.filter
      (fun e => e.event_type == "focus_loss") = [] :=
  C2_focus_debounce.1 lossTicks49 0 1800 0 (of_decide_eq_true (by with_unfolding_all rfl))

/-- Counterexample to C2 as stated: under the nominal 2-second poll
cadence a continuous focus-lost reading lasting exactly 5.1 seconds
(false on [0, 5.1): sampled false at the ticks at 0, 2 and 4, true at 6)
produces no event at all — not exactly one — since no tick observes the
reading false more than 5 seconds after the first false observation. -/
theorem C2_counterexample :
    (DetectionThread_run 0 30 lossTicks51).events = [] :=
  of_decide_eq_true (by with_unfolding_all rfl)

/-- Claim C8 (code bug): every event type the tick loop can emit lies in
{focus_loss, no_face, multiple_faces, phone_detected, notes_detected,
device_detected, drowsiness}; the event fired by the 5-second focus
debounce has type `focus_loss`, which is NOT among the values declared in
`EventLog.EVENT_TYPE_CHOICES`, while the declared (and claimed) value
`focus_lost` is never emitted by the loop. -/
theorem C8_focus_loss_not_a_declared_type :
    (∀ (startTime durSec : ℚ) (s : DetState) (ticks : List TickInput),
        (((runTicks startTime durSec s ticks).events.map (fun e => e.event_type)).all
          (fun ty => emittedTypes.contains ty)) = true)
    ∧ (DetectionThread_run 0 30 (lossTicks61 (mkRat 4 5))).events.map (fun e => e.event_type)
        = ["focus_loss"]
    ∧ "focus_loss" ∉ EVENT_TYPE_CHOICES.map Prod.fst
    ∧ "focus_lost" ∈ EVENT_TYPE_CHOICES.map Prod.fst
    ∧ "focus_lost" ∉ emittedTypes := by
  refine ⟨?_, of_decide_eq_true (by with_unfolding_all rfl), by decide, by decide, by decide⟩
  intro startTime durSec s ticks
  exact runTicks_types_all startTime durSec ticks s

end Proctor
